import Mathlib

/-!
Shallow embedding of the yuuno2 connection multiplexer
(`yuuno2-core/yuuno2/networking/multiplex.py`) and of the VapourSynth
script collaborator (`yuuno2/vapoursynth/script.py`).

Python objects become explicit records; `async` methods become pure
functions that thread the state; raised exceptions become `Except` errors
(every exception modelled here is raised before any state mutation, so an
error result leaves the state as it was).  Mutable aliasing of `Channel`
objects (the `streams` dict stores references) is modelled with a small
heap: `Mux.heap` maps channel ids to channel states and `Mux.streams`
maps registered names to channel ids.

The `Resource` base class, the `pipe` factory and `ReaderTask` live in
modules of this repository that are outside the embedded sources; where
their behaviour matters it is modelled from the specification and marked
as such in the doc comments.
-/

namespace Yuuno2

/-- A field value of a wire message: either a string or a nested field
mapping (the `payload` of a multiplexing envelope is the inner message's
field mapping).  Non-string `target`/`type` values and non-mapping
payloads do not occur on the modelled paths. -/
inductive FVal where
  | str : String → FVal
  | obj : List (String × FVal) → FVal

/-- `Message(values, blobs)`: structured key/value fields plus an ordered
list of binary blobs (blobs abstracted as naturals). -/
structure Message where
  values : List (String × FVal)
  blobs  : List Nat

/-- Exceptions raised by the embedded code: `ensure_acquired` failure,
`ConnectionResetError` from `Channel._ensure_open`, the
`RuntimeError("Stream already registered.")` of `Channel._acquire`, and
the `AttributeError` a Python `None` attribute access raises (reached
when `ingress`/`egress` are unset). -/
inductive Err where
  | notAcquired
  | connectionReset
  | alreadyRegistered
  | attrNone
  deriving DecidableEq

/-- Association-list lookup (Python `dict` read access). -/
def alookup {α β : Type} [DecidableEq α] (k : α) : List (α × β) → Option β
  | [] => none
  | (a, b) :: rest => if k = a then some b else alookup k rest

/-- Association-list removal (Python `dict.pop(k, None)`). -/
def aerase {α β : Type} [DecidableEq α] (k : α) : List (α × β) → List (α × β)
  | [] => []
  | (a, b) :: rest => if k = a then aerase k rest else (a, b) :: aerase k rest

/-- Association-list write (Python `d[k] = v`): replace in place if the
key is present, append otherwise. -/
def aset {α β : Type} [DecidableEq α] (k : α) (v : β) : List (α × β) → List (α × β)
  | [] => [(k, v)]
  | (a, b) :: rest => if a = k then (a, v) :: rest else (a, b) :: aset k v rest

/-- `msg.get(k, d)` restricted to string values: `target` and `type` are
strings on every modelled path (a non-string value would be an unhashable
or nonsensical dict key in the source). -/
def Message.getString (m : Message) (k : String) (d : String) : String :=
  match alookup k m.values with
  | some (.str s) => s
  | some (.obj _) => d
  | none => d

/-- The field mapping carried by a `payload` value. -/
def FVal.asFields : FVal → List (String × FVal)
  | .str _ => []
  | .obj vs => vs

/-- Modelled from the spec (§4.2): the in-process Pipe backing a
Channel's `ingress` Connection.  `queue` holds pending items in write
order, `none` being the end-of-stream sentinel; `closedW` records that
the sentinel has been enqueued (close is idempotent); `terminated`
records that the sentinel has been read (terminal state: further reads
keep returning it). -/
structure Pipe where
  queue : List (Option Message)
  closedW : Bool
  terminated : Bool

/-- Modelled from the spec (§4.2): `write(message)` enqueues. -/
def Pipe.writeP (p : Pipe) (m : Message) : Pipe :=
  { p with queue := p.queue ++ [some m] }

/-- Modelled from the spec (§4.2, §4.4): feeding the end-of-stream
sentinel into the pipe, exactly once (idempotent). -/
def Pipe.closeP (p : Pipe) : Pipe :=
  if p.closedW then p else { p with queue := p.queue ++ [none], closedW := true }

/-- Modelled from the spec (§4.2): `read()` returns items strictly in
write order; `none` means the reader would block; after the sentinel is
returned all subsequent reads return it again. -/
def Pipe.readP (p : Pipe) : Option (Option Message × Pipe) :=
  if p.terminated then some (none, p)
  else
    match p.queue with
    | [] => none
    | some m :: rest => some (some m, { p with queue := rest })
    | none :: rest => some (none, { p with queue := rest, terminated := true })

/-- State of one `Channel` object.  `closed` is the `_closed` flag;
`acquired` the Resource flag; `ingress` the pipe behind the ingress
Connection (`none` before `_acquire` and after `_release`, mirroring the
Python attribute being `None`); `hasEgress` whether the
`ChannelOutputStream` is set. -/
structure Channel where
  name : String
  closed : Bool
  acquired : Bool
  ingress : Option Pipe
  hasEgress : Bool

/-- State of one `Multiplexer` plus everything it can reach: the
registry `streams` (name → channel id), the channel heap, the `_closed`
and `_shutdown` events, whether the parent connection was closed, and
`outbox`, the ordered list of frames written to the parent connection by
`Multiplexer.write`. -/
structure Mux where
  acquired : Bool
  shutdown : Bool
  closedF : Bool
  parentClosed : Bool
  streams : List (String × Nat)
  heap : List (Nat × Channel)
  outbox : List Message

/-- Update every heap entry with the given id (Python mutates the one
shared object). -/
def updHeap (h : List (Nat × Channel)) (cid : Nat) (c : Channel) : List (Nat × Channel) :=
  match h with
  | [] => []
  | (a, b) :: rest =>
      if a = cid then (a, c) :: updHeap rest cid c else (a, b) :: updHeap rest cid c

/-- The frame built by `ChannelOutputStream.write` (multiplex.py line
37): `{target: name, type: "message", payload: message.values}` with the
original blobs. -/
def egressFrame (n : String) (m : Message) : Message :=
  ⟨[("target", .str n), ("type", .str "message"), ("payload", .obj m.values)], m.blobs⟩

/-- The close frame of `ChannelOutputStream.close` and `Channel._release`
(lines 46 and 108–110): `{target: name, type: "close"}`, no payload
field, no blobs. -/
def closeFrame (n : String) : Message :=
  ⟨[("target", .str n), ("type", .str "close")], []⟩

/-- The corrective close reply of `Multiplexer._delivered` (line 174):
`{target, type: "close", payload: {}}`. -/
def closeReply (t : String) : Message :=
  ⟨[("target", .str t), ("type", .str "close"), ("payload", .obj [])], []⟩

/-- The corrective illegal reply of `Multiplexer._delivered` (line 178):
`{target, type: "illegal", payload: {}}`. -/
def illegalReply (t : String) : Message :=
  ⟨[("target", .str t), ("type", .str "illegal"), ("payload", .obj [])], []⟩

/-- `Multiplexer.write`: `ensure_acquired`, then (under the write mutex,
irrelevant in this sequential model) forward the frame to the parent
connection. -/
def Mux.write (mux : Mux) (msg : Message) : Except Err Mux :=
  if mux.acquired then .ok { mux with outbox := mux.outbox ++ [msg] } else .error .notAcquired

/-- `Multiplexer.close`: `ensure_acquired`, close the parent connection,
set the `_closed` event. -/
def Mux.close (mux : Mux) : Except Err Mux :=
  if mux.acquired then .ok { mux with parentClosed := true, closedF := true }
  else .error .notAcquired

/-- `Channel.deliver`: a `None` message marks the channel closed and, if
the channel is acquired, feeds end-of-stream into the ingress pipe; a
real message requires the channel acquired (`ensure_acquired`) and is
enqueued into the ingress pipe. -/
def Channel.deliverC (ch : Channel) (msg : Option Message) : Except Err Channel :=
  match msg with
  | none =>
      let ch1 := { ch with closed := true }
      if ch1.acquired then .ok { ch1 with ingress := ch1.ingress.map Pipe.closeP }
      else .ok ch1
  | some m =>
      if ch.acquired then .ok { ch with ingress := ch.ingress.map (Pipe.writeP · m) }
      else .error .notAcquired

/-- Result of `Channel.read`: a value (`none` = remote end-of-stream)
with the updated channel, a would-block marker, or a raised exception. -/
inductive ReadRes where
  | ok (v : Option Message) (c : Channel)
  | blocked
  | err (e : Err)

/-- `Channel.read`: `_ensure_open` (ConnectionResetError if `_closed`),
then read from the ingress pipe (`AttributeError` if `ingress` is
unset). -/
def Channel.readC (ch : Channel) : ReadRes :=
  if ch.closed then .err .connectionReset
  else
    match ch.ingress with
    | none => .err .attrNone
    | some p =>
        match p.readP with
        | none => .blocked
        | some (v, p') => .ok v { ch with ingress := some p' }

/-- `Channel.write`: `_ensure_open`, then `egress.write` (AttributeError
if `egress` is unset), which wraps the message in an `egressFrame` and
forwards it to `Multiplexer.write`.  The channel state itself is
unchanged. -/
def Channel.writeC (mux : Mux) (ch : Channel) (m : Message) : Except Err Mux :=
  if ch.closed then .error .connectionReset
  else if ch.hasEgress then mux.write (egressFrame ch.name m)
  else .error .attrNone

/-- Deliver a message (or close signal) to the channel with the given
id, mirroring `self.streams[connection].deliver(...)`: look the object
up, run `Channel.deliver`, store the mutated object back. -/
def Mux.deliverTo (mux : Mux) (cid : Nat) (m : Option Message) : Except Err Mux :=
  match alookup cid mux.heap with
  | none => .ok mux
  | some ch =>
      match ch.deliverC m with
      | .ok ch' => .ok { mux with heap := updHeap mux.heap cid ch' }
      | .error e => .error e

/-- `Multiplexer._delivered`, the dispatch callback, translated
branch for branch from multiplex.py lines 153–182. -/
def Mux.delivered (mux : Mux) (raw : Option Message) : Except Err Mux :=
  if !mux.acquired then .ok mux
  else
    match raw with
    | none => .ok { mux with shutdown := true }
    | some msg =>
        let connection := msg.getString "target" ""
        let ty := msg.getString "type" "message"
        if ty == "close" || ty == "illegal" then
          match alookup connection mux.streams with
          | none => .ok mux
          | some cid =>
              Mux.deliverTo { mux with streams := aerase connection mux.streams } cid none
        else
          match alookup connection mux.streams with
          | none => mux.write (closeReply connection)
          | some cid =>
              match alookup "payload" msg.values with
              | none => mux.write (illegalReply connection)
              | some p => Mux.deliverTo mux cid (some ⟨p.asFields, msg.blobs⟩)

/-- `Channel.acquire` for the channel with the given id.  Modelled from
the spec (§4.1) for the Resource base: a no-op if already acquired,
otherwise the `Channel._acquire` hook runs and on success the resource
is marked acquired.  The hook (multiplex.py lines 91–103) raises on a
duplicate name before mutating anything, then registers the name and
creates and acquires the ingress pipe and the egress stream.  The raised
error is returned alongside the (then unchanged) state. -/
def Mux.acquireChan (mux : Mux) (cid : Nat) : Mux × Option Err :=
  match alookup cid mux.heap with
  | none => (mux, none)
  | some ch =>
      if ch.acquired then (mux, none)
      else if (alookup ch.name mux.streams).isSome then (mux, some .alreadyRegistered)
      else
        let ch1 : Channel :=
          { ch with acquired := true, ingress := some ⟨[], false, false⟩, hasEgress := true }
        ({ mux with streams := mux.streams ++ [(ch.name, cid)],
                    heap := updHeap mux.heap cid ch1 }, none)

/-- `ChannelOutputStream.close` (multiplex.py lines 40–46): drop the
name from the registry, feed end-of-stream into the ingress pipe, and —
whenever the Multiplexer is still acquired — emit a `closeFrame`,
regardless of the channel's `_closed` flag. -/
def egressClose (mux : Mux) (ch : Channel) : Except Err (Mux × Channel) :=
  let mux1 := { mux with streams := aerase ch.name mux.streams }
  let ch1 := { ch with ingress := ch.ingress.map Pipe.closeP }
  if mux1.acquired then
    match mux1.write (closeFrame ch.name) with
    | .ok mux2 => .ok (mux2, ch1)
    | .error e => .error e
  else .ok (mux1, ch1)

/-- `Channel.close` (multiplex.py lines 134–137): if not yet closed run
`egress.close()` (AttributeError when `egress` is unset), then set
`_closed`. -/
def Mux.closeChan (mux : Mux) (cid : Nat) : Except Err Mux :=
  match alookup cid mux.heap with
  | none => .ok mux
  | some ch =>
      if ch.closed then .ok { mux with heap := updHeap mux.heap cid { ch with closed := true } }
      else if ch.hasEgress then
        match egressClose mux ch with
        | .ok (mux1, ch1) =>
            .ok { mux1 with heap := updHeap mux1.heap cid { ch1 with closed := true } }
        | .error e => .error e
      else .error .attrNone

/-- `Channel.release` for the channel with the given id.  Modelled from
the spec (§4.1) for the Resource base: a no-op when not acquired;
otherwise registered children are released first, most recently
registered first — here the egress stream (whose release hook is
`ChannelOutputStream.close`) and then the ingress connection (closing
its pipe) — and then the `Channel._release` hook (multiplex.py lines
105–120) runs: emit a `closeFrame` if `_closed` is still unset and the
Multiplexer is acquired, set `_closed`, drop the registry entry, release
ingress and egress again (no-ops now) and null the references. -/
def Mux.releaseChan (mux : Mux) (cid : Nat) : Except Err Mux :=
  match alookup cid mux.heap with
  | none => .ok mux
  | some ch =>
      if !ch.acquired then .ok mux
      else
        match egressClose mux ch with
        | .error e => .error e
        | .ok (mux1, ch1) =>
            let ch2 := { ch1 with ingress := ch1.ingress.map Pipe.closeP }
            match (if !ch2.closed && mux1.acquired
                   then mux1.write (closeFrame ch.name) else .ok mux1) with
            | .error e => .error e
            | .ok mux2 =>
                let ch3 : Channel :=
                  { ch2 with closed := true, acquired := false,
                             ingress := none, hasEgress := false }
                .ok { mux2 with streams := aerase ch.name mux2.streams,
                                heap := updHeap mux2.heap cid ch3 }

/-- One operation touching a channel, used to state that the `closed`
flag is monotone under everything the code can do. -/
inductive ChanOp where
  | opDeliver (m : Option Message)
  | opRead
  | opWrite (m : Message)
  | opClose
  | opRelease
  | opAcquire
  | opDispatch (raw : Option Message)

/-- Run an operation, keeping the previous state when it raises (every
modelled exception is raised before mutation). -/
def exceptS (e : Except Err Mux) (d : Mux) : Mux :=
  match e with
  | .ok m => m
  | .error _ => d

/-- Apply one operation addressed at the channel with id `cid`
(dispatch is global: its frame picks its own target). -/
def chanStep (mux : Mux) (cid : Nat) : ChanOp → Mux
  | .opDeliver m => exceptS (mux.deliverTo cid m) mux
  | .opRead =>
      match alookup cid mux.heap with
      | none => mux
      | some ch =>
          match ch.readC with
          | .ok _ ch' => { mux with heap := updHeap mux.heap cid ch' }
          | _ => mux
  | .opWrite m =>
      match alookup cid mux.heap with
      | none => mux
      | some ch => exceptS (Channel.writeC mux ch m) mux
  | .opClose => exceptS (mux.closeChan cid) mux
  | .opRelease => exceptS (mux.releaseChan cid) mux
  | .opAcquire => (mux.acquireChan cid).1
  | .opDispatch raw => exceptS (mux.delivered raw) mux

/-- The `_closed` flag of the channel with id `cid` (false when no such
channel exists). -/
def closedOf (mux : Mux) (cid : Nat) : Bool :=
  match alookup cid mux.heap with
  | some ch => ch.closed
  | none => false

/-- Outbox of a dispatch/lifecycle result (empty when it raised). -/
def outboxOf (e : Except Err Mux) : List Message :=
  match e with
  | .ok m => m.outbox
  | .error _ => []

/-- Read result of the channel with id `cid` after a dispatch step. -/
def readResultAt (e : Except Err Mux) (cid : Nat) : Option ReadRes :=
  match e with
  | .ok m => (alookup cid m.heap).map Channel.readC
  | .error _ => none

/-! Configuration model of `yuuno2/vapoursynth/script.py`. -/

/-- A configuration value (`ConfigTypes`). -/
inductive CVal where
  | intV : Int → CVal
  | strV : String → CVal
  | boolV : Bool → CVal
  deriving DecidableEq

/-- Exceptions raised by `VapourSynthScript`: the `EnvironmentError` of
its `ensure_acquired` override, the not-acquired error of the Resource
base, and `KeyError(key)`. -/
inductive ScriptErr where
  | envDestroyed
  | notAcquiredS
  | keyError (k : String)
  deriving DecidableEq

/-- State of a `VapourSynthScript`: the Resource flag, whether the
VapourSynth environment is alive, the `config` dict and the attributes
set on the VapourSynth core. -/
structure VSScript where
  acquired : Bool
  envAlive : Bool
  config : List (String × CVal)
  coreAttrs : List (String × CVal)

/-- `VapourSynthScript.ensure_acquired` as a pure guard: dead
environment first (that path also releases the script; the claims at
hand never reach it), then the Resource guard. -/
def VSScript.guard (s : VSScript) : Option ScriptErr :=
  if !s.envAlive then some .envDestroyed
  else if !s.acquired then some .notAcquiredS
  else none

/-- `VapourSynthScript.set_config` (script.py lines 27–33): guard, store
under the full key, and additionally mirror `vs.core.*` keys onto the
core with the prefix stripped. -/
def VSScript.setConfig (s : VSScript) (k : String) (v : CVal) : Except ScriptErr VSScript :=
  match s.guard with
  | some e => .error e
  | none =>
      let s1 := { s with config := aset k v s.config }
      if k.startsWith "vs.core." then
        .ok { s1 with coreAttrs := aset (k.drop (String.length "vs.core.")) v s1.coreAttrs }
      else .ok s1

/-- `VapourSynthScript.get_config` (script.py lines 35–40): guard, then
`config.get(key, default)`, raising `KeyError(key)` exactly when the key
is absent and no default (`NOT_GIVEN`, modelled as `none`) was
supplied. -/
def VSScript.getConfig (s : VSScript) (k : String) (dflt : Option CVal) : Except ScriptErr CVal :=
  match s.guard with
  | some e => .error e
  | none =>
      match alookup k s.config with
      | some v => .ok v
      | none =>
          match dflt with
          | some d => .ok d
          | none => .error (.keyError k)

/-- `VapourSynthScript.list_config` (script.py lines 42–44): guard, then
the list of config keys. -/
def VSScript.listConfig (s : VSScript) : Except ScriptErr (List String) :=
  match s.guard with
  | some e => .error e
  | none => .ok (s.config.map Prod.fst)

/-! Helper lemmas about the association-list operations. -/

theorem alookup_aset_self {α β : Type} [DecidableEq α] (k : α) (v : β) (l : List (α × β)) :
    alookup k (aset k v l) = some v := by
  induction l with
  | nil => simp [aset, alookup]
  | cons p rest ih =>
      obtain ⟨a, b⟩ := p
      by_cases h : a = k
      · subst h; simp [aset, alookup]
      · have h2 : ¬(k = a) := fun hh => h hh.symm
        simp [aset, alookup, h, h2, ih]

theorem mem_map_fst_aset {α β : Type} [DecidableEq α] (k : α) (v : β) (l : List (α × β)) :
    k ∈ (aset k v l).map Prod.fst := by
  induction l with
  | nil => simp [aset]
  | cons p rest ih =>
      obtain ⟨a, b⟩ := p
      by_cases h : a = k
      · subst h; simp [aset]
      · have hs : aset k v ((a, b) :: rest) = (a, b) :: aset k v rest := by
          simp [aset, h]
        rw [hs, List.map_cons]
        exact List.mem_cons_of_mem _ ih

/-! Theorems about the embedded program, one per claim. -/

/-- C1: writing a Message on an acquired, non-closed Channel forwards
exactly one frame to `Multiplexer.write`, whose fields are
`{target: name, type: "message", payload: message.values}` and whose
blobs are the message's blobs, unchanged and in order. -/
theorem channel_write_frames_egress (mux : Mux) (ch : Channel) (m : Message)
    (hmux : mux.acquired = true) (hcl : ch.closed = false)
    (_hch : ch.acquired = true) (heg : ch.hasEgress = true) :
    Channel.writeC mux ch m =
      .ok { mux with outbox := mux.outbox ++ [egressFrame ch.name m] } ∧
    (egressFrame ch.name m).values =
      [("target", .str ch.name), ("type", .str "message"), ("payload", .obj m.values)] ∧
    (egressFrame ch.name m).blobs = m.blobs := by
  refine ⟨?_, rfl, rfl⟩
  simp [Channel.writeC, Mux.write, hmux, hcl, heg]

/-- Concrete acquired channel used by the witnesses. -/
def chanW : Channel := ⟨"video", false, true, some ⟨[], false, false⟩, true⟩

/-- Concrete acquired multiplexer with `chanW` registered under id 1. -/
def muxW : Mux := ⟨true, false, false, false, [("video", 1)], [(1, chanW)], []⟩

/-- Concrete application message. -/
def msgW : Message := ⟨[("cmd", .str "ping")], [7]⟩

theorem channel_write_frames_egress_witness :
    Channel.writeC muxW chanW msgW =
      .ok { muxW with outbox := muxW.outbox ++ [egressFrame "video" msgW] } ∧
    (egressFrame "video" msgW).values =
      [("target", .str "video"), ("type", .str "message"), ("payload", .obj msgW.values)] ∧
    (egressFrame "video" msgW).blobs = msgW.blobs :=
  channel_write_frames_egress muxW chanW msgW rfl rfl rfl rfl

/-- C3: dispatching an inbound `message` frame whose target is not
registered emits exactly one `{target, type: "close"}` reply and changes
nothing else — in particular no channel receives a delivery. -/
theorem dispatch_unknown_target_close_reply (mux : Mux) (msg : Message)
    (hacq : mux.acquired = true)
    (hty : msg.getString "type" "message" = "message")
    (hs : alookup (msg.getString "target" "") mux.streams = none) :
    Mux.delivered mux (some msg) =
      .ok { mux with outbox := mux.outbox ++ [closeReply (msg.getString "target" "")] } := by
  simp [Mux.delivered, Mux.write, hacq, hty, hs]

theorem dispatch_unknown_target_close_reply_witness :
    Mux.delivered muxW (some ⟨[("target", .str "B"), ("payload", .obj [])], []⟩) =
      .ok { muxW with outbox := muxW.outbox ++ [closeReply "B"] } :=
  dispatch_unknown_target_close_reply muxW _ rfl rfl rfl

/-- C4: dispatching an inbound `message` frame for a registered target
whose fields lack `"payload"` emits exactly one `{target, type:
"illegal"}` reply, delivers nothing to the channel, and raises nothing
to the caller (the result is a normal `.ok` state). -/
theorem dispatch_missing_payload_illegal_reply (mux : Mux) (msg : Message) (cid : Nat)
    (hacq : mux.acquired = true)
    (hty : msg.getString "type" "message" = "message")
    (hs : alookup (msg.getString "target" "") mux.streams = some cid)
    (hp : alookup "payload" msg.values = none) :
    Mux.delivered mux (some msg) =
      .ok { mux with outbox := mux.outbox ++ [illegalReply (msg.getString "target" "")] } := by
  simp [Mux.delivered, Mux.write, hacq, hty, hs, hp]

theorem dispatch_missing_payload_illegal_reply_witness :
    Mux.delivered muxW (some ⟨[("target", .str "video")], []⟩) =
      .ok { muxW with outbox := muxW.outbox ++ [illegalReply "video"] } :=
  dispatch_missing_payload_illegal_reply muxW _ 1 rfl rfl rfl rfl

/-- C6: acquiring a Channel whose name is already registered fails with
the duplicate-registration error, leaves the registry entry for that
name mapped to the originally registered channel id, and leaves the
Multiplexer state (in particular its acquired flag) untouched. -/
theorem duplicate_acquire_fails_preserves_registry (mux : Mux) (cid cid0 : Nat) (ch : Channel)
    (hh : alookup cid mux.heap = some ch)
    (hna : ch.acquired = false)
    (hs : alookup ch.name mux.streams = some cid0) :
    Mux.acquireChan mux cid = (mux, some .alreadyRegistered) ∧
    alookup ch.name (Mux.acquireChan mux cid).1.streams = some cid0 ∧
    (Mux.acquireChan mux cid).1.acquired = mux.acquired := by
  have h1 : Mux.acquireChan mux cid = (mux, some .alreadyRegistered) := by
    simp [Mux.acquireChan, hh, hna, hs]
  exact ⟨h1, by rw [h1]; exact hs, by rw [h1]⟩

/-- Fresh (never acquired) channel named "video", as `Multiplexer.connect`
builds it. -/
def chanFresh : Channel := ⟨"video", false, false, none, false⟩

/-- `muxW` with the extra unacquired channel `chanFresh` under id 2,
whose name collides with the registered channel 1. -/
def muxDup : Mux := { muxW with heap := muxW.heap ++ [(2, chanFresh)] }

theorem duplicate_acquire_fails_preserves_registry_witness :
    Mux.acquireChan muxDup 2 = (muxDup, some .alreadyRegistered) ∧
    alookup "video" (Mux.acquireChan muxDup 2).1.streams = some 1 ∧
    (Mux.acquireChan muxDup 2).1.acquired = muxDup.acquired :=
  duplicate_acquire_fails_preserves_registry muxDup 2 1 chanFresh rfl rfl rfl

/-- C9: on an acquired script with a live environment, `set_config k v`
succeeds, a subsequent `get_config k` returns `v` and `list_config`
includes `k`; and `get_config q` with no default raises `KeyError(q)`
exactly when `q` is absent from the config mapping (which `_acquire`
seeds with the `vs.core.*` entries). -/
theorem script_config_roundtrip (s : VSScript) (k q : String) (v : CVal)
    (ha : s.acquired = true) (he : s.envAlive = true) :
    ∃ s', s.setConfig k v = .ok s' ∧
      s'.getConfig k none = .ok v ∧
      (∃ ks, s'.listConfig = .ok ks ∧ k ∈ ks) ∧
      (s.getConfig q none = .error (.keyError q) ↔ alookup q s.config = none) := by
  have hiff : s.getConfig q none = .error (.keyError q) ↔ alookup q s.config = none := by
    constructor
    · intro hErr
      cases hq : alookup q s.config with
      | none => rfl
      | some w => simp [VSScript.getConfig, VSScript.guard, ha, he, hq] at hErr
    · intro hq
      simp [VSScript.getConfig, VSScript.guard, ha, he, hq]
  by_cases hsw : k.startsWith "vs.core."
  · refine ⟨{ s with config := aset k v s.config
                     coreAttrs := aset (k.drop (String.length "vs.core.")) v s.coreAttrs },
      ?_, ?_, ?_, hiff⟩
    · simp [VSScript.setConfig, VSScript.guard, ha, he, hsw]
    · simp [VSScript.getConfig, VSScript.guard, ha, he, alookup_aset_self]
    · exact ⟨(aset k v s.config).map Prod.fst,
        by simp [VSScript.listConfig, VSScript.guard, ha, he], mem_map_fst_aset k v s.config⟩
  · refine ⟨{ s with config := aset k v s.config }, ?_, ?_, ?_, hiff⟩
    · simp [VSScript.setConfig, VSScript.guard, ha, he, hsw]
    · simp [VSScript.getConfig, VSScript.guard, ha, he, alookup_aset_self]
    · exact ⟨(aset k v s.config).map Prod.fst,
        by simp [VSScript.listConfig, VSScript.guard, ha, he], mem_map_fst_aset k v s.config⟩

/-- Helper: updating the heap at a key that is present yields the new
channel on lookup. -/
theorem alookup_updHeap_self (h : List (Nat × Channel)) (cid : Nat) (c ch : Channel)
    (hl : alookup cid h = some ch) : alookup cid (updHeap h cid c) = some c := by
  induction h with
  | nil => simp [alookup] at hl
  | cons p rest ih =>
      obtain ⟨a, b⟩ := p
      by_cases hak : a = cid
      · subst hak; simp [updHeap, alookup]
      · have h2 : ¬(cid = a) := fun hh => hak hh.symm
        simp only [alookup, updHeap, if_neg hak, if_neg h2] at hl ⊢
        exact ih hl

/-- Helper: updating the heap at one key leaves lookups of other keys
unchanged. -/
theorem alookup_updHeap_ne (h : List (Nat × Channel)) (cid cid' : Nat) (c : Channel)
    (hne : cid ≠ cid') : alookup cid (updHeap h cid' c) = alookup cid h := by
  induction h with
  | nil => simp [updHeap]
  | cons p rest ih =>
      obtain ⟨a, b⟩ := p
      by_cases hak : a = cid'
      · subst hak
        simp [updHeap, alookup, hne, ih]
      · simp [updHeap, alookup, hak, ih]

/-- The inbound remote-close frame `{target: "video", type: "close"}`. -/
def closeFrameIn : Message := ⟨[("target", .str "video"), ("type", .str "close")], []⟩

/-- C2 counterexample: after dispatching an inbound close frame for the
registered channel "video", a subsequent `channel.read()` does not
return the closed/None signal — it raises `ConnectionResetError`
(`_ensure_open` fires because `deliver(None)` set `_closed`). -/
theorem dispatch_close_read_raises_cex :
    readResultAt (Mux.delivered muxW (some closeFrameIn)) 1 =
      some (ReadRes.err Err.connectionReset) ∧
    outboxOf (Mux.delivered muxW (some closeFrameIn)) = [] := by
  exact ⟨rfl, rfl⟩

/-- C2 (amended): dispatching an inbound `close`/`illegal` frame for a
registered target removes it from the registry, delivers the close
signal (None) into that channel's ingress and emits no frame; a
subsequent `channel.read()` then fails with the connection-reset
condition (rather than returning the None signal).  For an unregistered
target dispatch does nothing further. -/
theorem dispatch_close_unregisters_and_reads_reset (mux : Mux) (msg : Message)
    (cid : Nat) (ch : Channel)
    (hacq : mux.acquired = true)
    (hty : msg.getString "type" "message" = "close" ∨
           msg.getString "type" "message" = "illegal") :
    (alookup (msg.getString "target" "") mux.streams = some cid →
      alookup cid mux.heap = some ch → ch.acquired = true →
      Mux.delivered mux (some msg) =
        .ok { mux with streams := aerase (msg.getString "target" "") mux.streams
                       heap := updHeap mux.heap cid
                         { ch with closed := true, ingress := ch.ingress.map Pipe.closeP } } ∧
      Channel.readC { ch with closed := true, ingress := ch.ingress.map Pipe.closeP } =
        .err .connectionReset) ∧
    (alookup (msg.getString "target" "") mux.streams = none →
      Mux.delivered mux (some msg) = .ok mux) := by
  have hguard : (msg.getString "type" "message" == "close" ||
                 msg.getString "type" "message" == "illegal") = true := by
    rcases hty with h | h <;> simp [h]
  constructor
  · intro hs hh hcha
    refine ⟨?_, by simp [Channel.readC]⟩
    simp [Mux.delivered, hacq, hguard, hs, Mux.deliverTo, hh, Channel.deliverC, hcha]
  · intro hs
    simp [Mux.delivered, hacq, hguard, hs]

theorem dispatch_close_unregisters_and_reads_reset_witness :
    Mux.delivered muxW (some closeFrameIn) =
      .ok { muxW with streams := aerase "video" muxW.streams
                      heap := updHeap muxW.heap 1
                        { chanW with closed := true
                                     ingress := chanW.ingress.map Pipe.closeP } } ∧
    Channel.readC { chanW with closed := true, ingress := chanW.ingress.map Pipe.closeP } =
      .err .connectionReset :=
  (dispatch_close_unregisters_and_reads_reset muxW closeFrameIn 1 chanW rfl
    (Or.inl rfl)).1 rfl rfl rfl

/-- The state reached from `muxW` after the peer closed "video": the
channel observed a remote close (its `_closed` flag is set and it is
unregistered) and nothing has been written outward. -/
def muxRemoteClosed : Mux := exceptS (Mux.delivered muxW (some closeFrameIn)) muxW

/-- C5: evaluated on the concrete states, releasing the still-open
acquired channel "video" of `muxW` emits the close frame TWICE (once
from the egress stream's release hook `ChannelOutputStream.close`, once
from `Channel._release`), and releasing the channel that already
observed a remote close still emits ONE close frame (the egress hook
emits unconditionally) — the spec demands exactly one and none
respectively. -/
theorem release_emits_two_close_frames :
    outboxOf (Mux.releaseChan muxW 1) = [closeFrame "video", closeFrame "video"] ∧
    outboxOf (Mux.releaseChan muxRemoteClosed 1) = [closeFrame "video"] := by
  exact ⟨rfl, rfl⟩

/-- C7 counterexample: reading a constructed-but-never-acquired Channel
fails with the unset-`ingress` attribute error, not with the
not-acquired error. -/
theorem fresh_channel_read_error_cex :
    Channel.readC chanFresh = .err .attrNone ∧
    ReadRes.err Err.attrNone ≠ ReadRes.err Err.notAcquired := by
  refine ⟨rfl, ?_⟩
  intro hcon
  injection hcon with h2
  exact absurd h2 (by decide)

/-- C7 (amended): `Multiplexer.write` and `Multiplexer.close` fail with
the not-acquired error when the Multiplexer is not acquired;
`Channel.read` and `Channel.write` on a non-acquired channel also fail
fast, but never with the not-acquired error: after release (closed flag
set) they raise connection-reset, and before the first acquire they hit
the unset `ingress`/`egress` attributes. -/
theorem not_acquired_guards (mux : Mux) (ch : Channel) (m : Message)
    (hmux : mux.acquired = false) :
    mux.write m = .error .notAcquired ∧
    mux.close = .error .notAcquired ∧
    (ch.closed = true →
      ch.readC = .err .connectionReset ∧
      Channel.writeC mux ch m = .error .connectionReset) ∧
    (ch.closed = false → ch.ingress = none → ch.hasEgress = false →
      ch.readC = .err .attrNone ∧
      Channel.writeC mux ch m = .error .attrNone) := by
  refine ⟨by simp [Mux.write, hmux], by simp [Mux.close, hmux], ?_, ?_⟩
  · intro hcl
    exact ⟨by simp [Channel.readC, hcl], by simp [Channel.writeC, hcl]⟩
  · intro hcl hin heg
    exact ⟨by simp [Channel.readC, hcl, hin], by simp [Channel.writeC, hcl, heg]⟩

/-- `muxW` after losing its acquired flag (as after release). -/
def muxNA : Mux := { muxW with acquired := false }

theorem not_acquired_guards_witness :
    muxNA.write msgW = .error .notAcquired ∧
    muxNA.close = .error .notAcquired ∧
    Channel.readC chanFresh = .err .attrNone ∧
    Channel.writeC muxNA chanFresh msgW = .error .attrNone := by
  have h := not_acquired_guards muxNA chanFresh msgW rfl
  exact ⟨h.1, h.2.1, (h.2.2.2 rfl rfl rfl).1, (h.2.2.2 rfl rfl rfl).2⟩

/-- Acquired multiplexer with an empty registry. -/
def muxEmpty : Mux := ⟨true, false, false, false, [], [], []⟩

/-- Inbound message frame for the unregistered target "B". -/
def msgToB : Message := ⟨[("target", .str "B"), ("payload", .obj [])], []⟩

/-- C8 counterexample: the corrective close frame dispatch emits for an
unknown target has type "close" yet carries a "payload" field (the
empty mapping), so a non-message frame of the multiplexing layer does
carry a payload field. -/
theorem dispatch_close_reply_carries_payload_cex :
    outboxOf (Mux.delivered muxEmpty (some msgToB)) = [closeReply "B"] ∧
    (closeReply "B").getString "type" "message" = "close" ∧
    alookup "payload" (closeReply "B").values = some (.obj []) := by
  exact ⟨rfl, rfl, rfl⟩

/-- C8 (amended): close frames emitted by channel close/release carry no
payload field and message frames carry the wrapped payload, but the
corrective close and illegal replies emitted by dispatch do carry a
(vacuous, empty-mapping) payload field. -/
theorem frame_payload_presence (n t : String) (m : Message) :
    alookup "payload" (closeFrame n).values = none ∧
    alookup "payload" (egressFrame n m).values = some (.obj m.values) ∧
    alookup "payload" (closeReply t).values = some (.obj []) ∧
    alookup "payload" (illegalReply t).values = some (.obj []) := by
  exact ⟨rfl, rfl, rfl, rfl⟩

/-- Helper: `Channel.deliver` never resets the closed flag. -/
theorem deliverC_closed_mono (ch : Channel) (m : Option Message) (ch' : Channel)
    (hcl : ch.closed = true) (hd : ch.deliverC m = .ok ch') : ch'.closed = true := by
  cases m with
  | none =>
      by_cases ha : ch.acquired = true <;>
        simp [Channel.deliverC, ha] at hd <;> subst hd <;> rfl
  | some mm =>
      by_cases ha : ch.acquired = true
      · simp [Channel.deliverC, ha] at hd
        subst hd
        simpa using hcl
      · simp [Channel.deliverC, ha] at hd

/-- Helper: delivering through the heap never resets a closed flag. -/
theorem deliverTo_ok_closed (mux mux' : Mux) (cid cid' : Nat) (m : Option Message)
    (h : closedOf mux cid = true) (hd : mux.deliverTo cid' m = .ok mux') :
    closedOf mux' cid = true := by
  cases hh : alookup cid' mux.heap with
  | none =>
      simp [Mux.deliverTo, hh] at hd
      subst hd
      exact h
  | some ch =>
      cases hdc : ch.deliverC m with
      | error e => simp [Mux.deliverTo, hh, hdc] at hd
      | ok ch2 =>
          simp [Mux.deliverTo, hh, hdc] at hd
          subst hd
          by_cases hc : cid = cid'
          · subst hc
            have hcl : ch.closed = true := by simpa [closedOf, hh] using h
            have hcl2 := deliverC_closed_mono ch m ch2 hcl hdc
            simp [closedOf, alookup_updHeap_self mux.heap cid ch2 ch hh, hcl2]
          · have hne := alookup_updHeap_ne mux.heap cid cid' ch2 hc
            simpa [closedOf, hne] using h

/-- Helper: one dispatch step never resets any channel's closed flag. -/
theorem delivered_ok_closed (mux mux' : Mux) (cid : Nat) (raw : Option Message)
    (h : closedOf mux cid = true) (hd : mux.delivered raw = .ok mux') :
    closedOf mux' cid = true := by
  by_cases hacq : mux.acquired = true
  · cases raw with
    | none =>
        simp [Mux.delivered, hacq] at hd
        subst hd
        simpa [closedOf] using h
    | some msg =>
        by_cases hty : (msg.getString "type" "message" == "close" ||
                        msg.getString "type" "message" == "illegal") = true
        · cases hs : alookup (msg.getString "target" "") mux.streams with
          | none =>
              simp [Mux.delivered, hacq, hty, hs] at hd
              subst hd
              exact h
          | some cid' =>
              simp [Mux.delivered, hacq, hty, hs] at hd
              exact deliverTo_ok_closed _ mux' cid cid' none (by simpa [closedOf] using h) hd
        · cases hs : alookup (msg.getString "target" "") mux.streams with
          | none =>
              simp [Mux.delivered, hacq, hty, hs, Mux.write] at hd
              subst hd
              simpa [closedOf] using h
          | some cid' =>
              cases hp : alookup "payload" msg.values with
              | none =>
                  simp [Mux.delivered, hacq, hty, hs, hp, Mux.write] at hd
                  subst hd
                  simpa [closedOf] using h
              | some p =>
                  simp [Mux.delivered, hacq, hty, hs, hp] at hd
                  exact deliverTo_ok_closed mux mux' cid cid' _ h hd
  · rw [Bool.not_eq_true] at hacq
    simp [Mux.delivered, hacq] at hd
    subst hd
    exact h

/-- Helper: releasing a channel never resets a closed flag. -/
theorem releaseChan_ok_closed (mux mux' : Mux) (cid : Nat)
    (h : closedOf mux cid = true) (hd : mux.releaseChan cid = .ok mux') :
    closedOf mux' cid = true := by
  cases hh : alookup cid mux.heap with
  | none =>
      simp [Mux.releaseChan, hh] at hd
      subst hd
      exact h
  | some ch =>
      by_cases ha : ch.acquired = true
      · have hcl : ch.closed = true := by simpa [closedOf, hh] using h
        by_cases hm : mux.acquired = true
        · simp [Mux.releaseChan, hh, ha, egressClose, Mux.write, hm, hcl] at hd
          subst hd
          simp [closedOf, alookup_updHeap_self mux.heap cid ⟨ch.name, true, false, none, false⟩ ch hh]
        · simp [Mux.releaseChan, hh, ha, egressClose, Mux.write, hm, hcl] at hd
          subst hd
          simp [closedOf, alookup_updHeap_self mux.heap cid ⟨ch.name, true, false, none, false⟩ ch hh]
      · simp [Mux.releaseChan, hh, ha] at hd
        subst hd
        exact h

/-- C10: the channel's closed flag is monotone — whatever operation runs
next (deliver, read, write, close, release, acquire, or a whole dispatch
step), a channel whose flag is set keeps it set — and while it is set,
`read()` and `write()` raise `ConnectionResetError`. -/
theorem channel_closed_monotone (mux : Mux) (cid : Nat) (ch : Channel) (op : ChanOp)
    (m : Message) (hch : alookup cid mux.heap = some ch) (hcl : ch.closed = true) :
    closedOf (chanStep mux cid op) cid = true ∧
    ch.readC = .err .connectionReset ∧
    Channel.writeC mux ch m = .error .connectionReset := by
  have h : closedOf mux cid = true := by simp [closedOf, hch, hcl]
  refine ⟨?_, by simp [Channel.readC, hcl], by simp [Channel.writeC, hcl]⟩
  cases op with
  | opDeliver m' =>
      simp only [chanStep]
      cases hres : mux.deliverTo cid m' with
      | ok mux' => exact deliverTo_ok_closed mux mux' cid cid m' h hres
      | error e => exact h
  | opRead =>
      have hstep : chanStep mux cid .opRead = mux := by
        simp [chanStep, hch, Channel.readC, hcl]
      rw [hstep]
      exact h
  | opWrite m' =>
      have hstep : chanStep mux cid (.opWrite m') = mux := by
        simp [chanStep, hch, Channel.writeC, hcl, exceptS]
      rw [hstep]
      exact h
  | opClose =>
      have hstep : chanStep mux cid .opClose =
          { mux with heap := updHeap mux.heap cid { ch with closed := true } } := by
        simp [chanStep, Mux.closeChan, hch, hcl, exceptS]
      rw [hstep]
      simp [closedOf, alookup_updHeap_self mux.heap cid { ch with closed := true } ch hch]
  | opRelease =>
      simp only [chanStep]
      cases hres : mux.releaseChan cid with
      | ok mux' => exact releaseChan_ok_closed mux mux' cid h hres
      | error e => exact h
  | opAcquire =>
      simp only [chanStep]
      by_cases ha : ch.acquired = true
      · have hstep : (mux.acquireChan cid).1 = mux := by
          simp [Mux.acquireChan, hch, ha]
        rw [hstep]
        exact h
      · by_cases hreg : (alookup ch.name mux.streams).isSome = true
        · have hstep : (mux.acquireChan cid).1 = mux := by
            simp [Mux.acquireChan, hch, ha, hreg]
          rw [hstep]
          exact h
        · have hstep : (mux.acquireChan cid).1 =
              { mux with streams := mux.streams ++ [(ch.name, cid)]
                         heap := updHeap mux.heap cid
                           ⟨ch.name, ch.closed, true, some ⟨[], false, false⟩, true⟩ } := by
            simp [Mux.acquireChan, hch, ha, hreg]
          rw [hstep]
          simp [closedOf, hcl,
            alookup_updHeap_self mux.heap cid
              ⟨ch.name, true, true, some ⟨[], false, false⟩, true⟩ ch hch]
  | opDispatch raw =>
      simp only [chanStep]
      cases hres : mux.delivered raw with
      | ok mux' => exact delivered_ok_closed mux mux' cid raw h hres
      | error e => exact h

/-- The state of channel 1 of `muxRemoteClosed`, written out. -/
def chanRC : Channel := ⟨"video", true, true, some ⟨[none], true, false⟩, true⟩

theorem channel_closed_monotone_witness :
    closedOf (chanStep muxRemoteClosed 1 .opRead) 1 = true ∧
    Channel.readC chanRC = .err .connectionReset ∧
    Channel.writeC muxRemoteClosed chanRC msgW = .error .connectionReset :=
  channel_closed_monotone muxRemoteClosed 1 chanRC .opRead msgW rfl rfl

/-- Concrete acquired script with a live environment and the seeded
`vs.core.*` configuration. -/
def scriptW : VSScript :=
  ⟨true, true, [("vs.core.num_threads", .intV 4)], [("num_threads", .intV 4)]⟩

theorem script_config_roundtrip_witness :
    ∃ s', scriptW.setConfig "opt" (.strV "x") = .ok s' ∧
      s'.getConfig "opt" none = .ok (.strV "x") ∧
      (∃ ks, s'.listConfig = .ok ks ∧ "opt" ∈ ks) ∧
      (scriptW.getConfig "missing" none = .error (.keyError "missing") ↔
        alookup "missing" scriptW.config = none) :=
  script_config_roundtrip scriptW "opt" "missing" (.strV "x") rfl rfl

end Yuuno2
